import Mathlib

/-!
# Native capture session of the guitar tuner

Shallow embedding of `app/src/main/cpp/tuner_jni.cpp`.

The global `gState` becomes an explicit `RecorderState` value that every
function takes and returns.  Calls into Oboe and JNI are not part of the
repository; their results are supplied by an environment (`StartEnv` for one
`nativeStart` call, a list of `LoopEvent`s for one run of `readLoop`), and the
requests issued to them are recorded as a list of `Effect`s.  The 32-bit
integers of the source are never used in arithmetic, only compared and stored,
so they are embedded as `Int`.
-/

namespace Tuner

/-! ## Oboe values -/

/-- Sharing modes of `oboe::SharingMode`. -/
inductive SharingMode
  | Exclusive
  | Shared
  deriving DecidableEq, Repr

/-- Directions of `oboe::Direction`. -/
inductive Direction
  | Output
  | Input
  deriving DecidableEq, Repr

/-- Performance modes of `oboe::PerformanceMode`. -/
inductive PerformanceMode
  | None
  | PowerSaving
  | LowLatency
  deriving DecidableEq, Repr

/-- Sample formats of `oboe::AudioFormat` that matter here. -/
inductive AudioFormat
  | Unspecified
  | I16
  | Float
  deriving DecidableEq, Repr

/-- Values of `oboe::Result`: `OK`, or an error carrying its code. -/
inductive Result
  | OK
  | Error (code : Int)
  deriving DecidableEq, Repr

/-- Settings held by the `oboe::AudioStreamBuilder` when an open is attempted. -/
structure AudioStreamBuilder where
  direction : Direction
  performanceMode : PerformanceMode
  sharingMode : SharingMode
  format : AudioFormat
  sampleRate : Int
  channelCount : Int
  deriving DecidableEq, Repr

/-- An open `oboe::AudioStream`, with the parameters the device resolved. -/
structure AudioStream where
  sharingMode : SharingMode
  sampleRate : Int
  framesPerBurst : Int
  deriving DecidableEq, Repr

/-- What one `builder.openStream(gState.stream)` attempt does: on `OK` the
shared pointer holds the new stream, otherwise an error code is returned. -/
inductive OpenOutcome
  | opened (stream : AudioStream)
  | failed (code : Int)
  deriving DecidableEq, Repr

/-! ## Session state -/

/-- The struct `RecorderState`; `thread` is `thread.joinable()`, pointers are
options, `running` is the value of the atomic flag. -/
structure RecorderState where
  vm : Option Nat := none
  engine : Option Nat := none
  onPcm : Option Nat := none
  onStreamConfig : Option Nat := none
  stream : Option AudioStream := none
  thread : Bool := false
  running : Bool := false
  framesPerRead : Int := 0
  deriving DecidableEq, Repr

/-- The global `gState` as initialised at load time. -/
def gState : RecorderState := {}

/-- Messages passed to `logWarning`. -/
inductive Warning
  | attachThread
  | globalRef
  | resolveClass
  | resolveMethods
  | openOboeStream
  | startOboeStream
  deriving DecidableEq, Repr

/-- Requests issued to Oboe, JNI, the logger and the thread library. -/
inductive Effect
  | logWarning (message : Warning)
  | builderOpenStream (mode : SharingMode)
  | streamRequestStart
  | streamRequestStop
  | streamClose
  | threadSpawn
  | threadJoin
  | NewGlobalRef
  | DeleteGlobalRef
  | GetObjectClass
  | GetMethodID
  | DeleteLocalRef
  | GetJavaVM
  deriving DecidableEq, Repr

/-- Answers of JNI and of the audio device during one `nativeStart` call. -/
structure StartEnv where
  NewGlobalRef : Option Nat
  GetObjectClass : Option Nat
  GetMethodID_onPcm : Option Nat
  GetMethodID_onStreamConfig : Option Nat
  GetJavaVM : Option Nat
  builderOpenStream : AudioStreamBuilder → OpenOutcome
  streamRequestStart : AudioStream → Result

/-! ## Stream negotiation -/

/-- The builder as configured at lines 33-39: mono 16-bit low-latency input
at the requested rate, exclusive mode. -/
def streamBuilder (requestedSampleRate : Int) : AudioStreamBuilder :=
  { direction := Direction.Input, performanceMode := PerformanceMode.LowLatency,
    sharingMode := SharingMode.Exclusive, format := AudioFormat.I16,
    sampleRate := requestedSampleRate, channelCount := 1 }

/-- The builder after `setSharingMode(oboe::SharingMode::Shared)` (line 43). -/
def sharedBuilder (requestedSampleRate : Int) : AudioStreamBuilder :=
  { streamBuilder requestedSampleRate with sharingMode := SharingMode.Shared }

/-- The function `openStream` (lines 32-56): exclusive attempt, shared retry,
reset of the handle on failure, resolution of `framesPerRead` on success. -/
def openStream (env : StartEnv) (s : RecorderState) (requestedSampleRate framesPerRead : Int) :
    Result × RecorderState × List Effect :=
  let builder : AudioStreamBuilder := streamBuilder requestedSampleRate
  let attempt : OpenOutcome × List Effect :=
    match env.builderOpenStream builder with
    | OpenOutcome.opened st => (OpenOutcome.opened st, [Effect.builderOpenStream SharingMode.Exclusive])
    | OpenOutcome.failed _ =>
      (env.builderOpenStream (sharedBuilder requestedSampleRate),
        [Effect.builderOpenStream SharingMode.Exclusive, Effect.builderOpenStream SharingMode.Shared])
  match attempt.1 with
  | OpenOutcome.failed code => (Result.Error code, { s with stream := none }, attempt.2)
  | OpenOutcome.opened st =>
    let s1 : RecorderState := { s with stream := some st, framesPerRead := framesPerRead }
    let s2 : RecorderState :=
      if s1.framesPerRead ≤ 0 then { s1 with framesPerRead := st.framesPerBurst } else s1
    (Result.OK, s2, attempt.2)

/-- The function `ensureJniRefs` (lines 104-129). -/
def ensureJniRefs (env : StartEnv) (s : RecorderState) : Bool × RecorderState × List Effect :=
  let s1 : RecorderState := if s.engine = none then { s with engine := env.NewGlobalRef } else s
  let e1 : List Effect := if s.engine = none then [Effect.NewGlobalRef] else []
  if s1.engine = none then
    (false, s1, e1 ++ [Effect.logWarning Warning.globalRef])
  else if s1.onPcm = none ∨ s1.onStreamConfig = none then
    match env.GetObjectClass with
    | none => (false, s1, e1 ++ [Effect.GetObjectClass, Effect.logWarning Warning.resolveClass])
    | some _ =>
      let s2 : RecorderState :=
        { s1 with onPcm := env.GetMethodID_onPcm, onStreamConfig := env.GetMethodID_onStreamConfig }
      let e2 : List Effect :=
        e1 ++ [Effect.GetObjectClass, Effect.GetMethodID, Effect.GetMethodID, Effect.DeleteLocalRef]
      if s2.onPcm = none ∨ s2.onStreamConfig = none then
        (false, s2, e2 ++ [Effect.logWarning Warning.resolveMethods])
      else (true, s2, e2)
  else (true, s1, e1)

/-! ## Session control -/

/-- Result of a completed `nativeStart` call. -/
structure StartOutcome where
  ret : Bool
  state : RecorderState
  effects : List Effect
  deriving DecidableEq, Repr

/-- The JNI entry point `nativeStart` (lines 133-163).  The result is `none`
when the call does not return: move-assigning the new `std::thread` to a
handle that is still joinable calls `std::terminate`. -/
def Java_com_example_tuner_TunerEngine_nativeStart (env : StartEnv) (s : RecorderState)
    (requestedSampleRate framesPerRead : Int) : Option StartOutcome :=
  if s.running then some ⟨true, s, []⟩
  else
    match ensureJniRefs env s with
    | (false, s1, e1) => some ⟨false, s1, e1⟩
    | (true, s1, e1) =>
      let s2 : RecorderState := if s1.vm = none then { s1 with vm := env.GetJavaVM } else s1
      let e2 : List Effect := if s1.vm = none then [Effect.GetJavaVM] else []
      match openStream env s2 requestedSampleRate framesPerRead with
      | (result, s3, e3) =>
        match result, s3.stream with
        | Result.OK, some st =>
          match env.streamRequestStart st with
          | Result.OK =>
            if s3.thread then none
            else
              some ⟨true, { s3 with running := true, thread := true },
                e1 ++ e2 ++ e3 ++ [Effect.streamRequestStart, Effect.threadSpawn]⟩
          | Result.Error _ =>
            some ⟨false, { s3 with stream := none },
              e1 ++ e2 ++ e3 ++ [Effect.streamRequestStart,
                Effect.logWarning Warning.startOboeStream, Effect.streamClose]⟩
        | _, _ =>
          some ⟨false, s3, e1 ++ e2 ++ e3 ++ [Effect.logWarning Warning.openOboeStream]⟩

/-- The JNI entry point `nativeStop` (lines 165-185).  `thread.join()` is
taken to return, after which the handle is no longer joinable. -/
def Java_com_example_tuner_TunerEngine_nativeStop (s : RecorderState) :
    RecorderState × List Effect :=
  let s1 : RecorderState := { s with running := false }
  let e1 : List Effect := if s1.stream.isSome then [Effect.streamRequestStop] else []
  let s2 : RecorderState := if s1.thread then { s1 with thread := false } else s1
  let e2 : List Effect := if s1.thread then [Effect.threadJoin] else []
  let s3 : RecorderState := if s2.stream.isSome then { s2 with stream := none } else s2
  let e3 : List Effect := if s2.stream.isSome then [Effect.streamClose] else []
  let s4 : RecorderState := if s3.engine.isSome then { s3 with engine := none } else s3
  let e4 : List Effect := if s3.engine.isSome then [Effect.DeleteGlobalRef] else []
  ({ s4 with onPcm := none, onStreamConfig := none }, e1 ++ e2 ++ e3 ++ e4)

/-- One call made by the controller. -/
inductive Call
  | start (env : StartEnv) (requestedSampleRate framesPerRead : Int)
  | stop

/-- State after one completed call, `none` if the call does not return. -/
def applyCall (s : RecorderState) : Call → Option RecorderState
  | Call.start env requestedSampleRate framesPerRead =>
    (Java_com_example_tuner_TunerEngine_nativeStart env s requestedSampleRate framesPerRead).map
      StartOutcome.state
  | Call.stop => some (Java_com_example_tuner_TunerEngine_nativeStop s).1

/-- State after a sequence of completed calls. -/
def runCalls : RecorderState → List Call → Option RecorderState
  | s, [] => some s
  | s, c :: cs =>
    match applyCall s c with
    | none => none
    | some s1 => runCalls s1 cs

/-- An inactive session: not running, no stream, no thread. -/
def Inactive (s : RecorderState) : Prop :=
  s.running = false ∧ s.stream = none ∧ s.thread = false

instance (s : RecorderState) : Decidable (Inactive s) := by
  unfold Inactive; infer_instance

/-! ## Capture loop -/

/-- Calls made on the Java engine object from the capture thread. -/
inductive Callback
  | onStreamConfig (actualRate : Int)
  | onPcm (pcm : List Int) (framesRead : Int)
  deriving DecidableEq, Repr

/-- Whether a callback is `onStreamConfig`. -/
def Callback.isStreamConfig : Callback → Bool
  | Callback.onStreamConfig _ => true
  | Callback.onPcm _ _ => false

/-- Whether a callback is `onPcm`. -/
def Callback.isPcm : Callback → Bool
  | Callback.onStreamConfig _ => false
  | Callback.onPcm _ _ => true

/-- The function `notifyStreamConfig` (lines 58-64). -/
def notifyStreamConfig (s : RecorderState) : List Callback :=
  match s.engine, s.onStreamConfig, s.stream with
  | some _, some _, some st => [Callback.onStreamConfig st.sampleRate]
  | _, _, _ => []

/-- The `ResultWithValue<int32_t>` returned by `stream->read`. -/
inductive ReadResult
  | error (code : Int)
  | value (framesRead : Int)
  deriving DecidableEq, Repr

/-- What one `stream->read` call did: its result and the samples the device
stored at the start of the buffer. -/
structure ReadOutcome where
  result : ReadResult
  written : List Int
  deriving DecidableEq, Repr

/-- Contents of the read buffer after the device stored `written` at its
start; the buffer keeps its size. -/
def writeBuffer (buffer written : List Int) : List Int :=
  (List.range buffer.length).map (fun i => written.getD i (buffer.getD i 0))

/-- The JNI call `NewShortArray`: a zero-filled array of the given length. -/
def NewShortArray (length : Int) : List Int :=
  List.replicate length.toNat 0

/-- The JNI call `SetShortArrayRegion`: copies `len` elements of `buf` into
`array` from index `start` on. -/
def SetShortArrayRegion (array : List Int) (start len : Nat) (buf : List Int) : List Int :=
  (List.range array.length).map (fun i =>
    if start ≤ i ∧ i < start + len then buf.getD (i - start) (array.getD i 0)
    else array.getD i 0)

/-- How an iteration of the `while` loop ends. -/
inductive LoopControl
  | continue_
  | break_
  deriving DecidableEq, Repr

/-- Outcome of one iteration of the `while` loop of `readLoop`: `reads` holds
the frame count passed to `stream->read`. -/
structure Iteration where
  state : RecorderState
  buffer : List Int
  reads : List Int
  calls : List Callback
  control : LoopControl
  deriving DecidableEq, Repr

/-- The body of the `while` loop of `readLoop` (lines 78-98), entered after
the test of the running flag; `allocOk` tells whether `NewShortArray`
returns an array. -/
def readLoopBody (s : RecorderState) (buffer : List Int) (read : ReadOutcome) (allocOk : Bool) :
    Iteration :=
  match s.stream with
  | none => ⟨s, buffer, [], [], LoopControl.break_⟩
  | some _ =>
    let buffer1 := writeBuffer buffer read.written
    match read.result with
    | ReadResult.error _ => ⟨s, buffer1, [s.framesPerRead], [], LoopControl.continue_⟩
    | ReadResult.value framesRead =>
      if framesRead ≤ 0 then ⟨s, buffer1, [s.framesPerRead], [], LoopControl.continue_⟩
      else if allocOk = false then ⟨s, buffer1, [s.framesPerRead], [], LoopControl.continue_⟩
      else
        let pcm := SetShortArrayRegion (NewShortArray framesRead) 0 framesRead.toNat buffer1
        ⟨s, buffer1, [s.framesPerRead], [Callback.onPcm pcm framesRead], LoopControl.continue_⟩

/-- What happens next while the loop runs: the controller clears the running
flag (line 167), or the loop performs one iteration. -/
inductive LoopEvent
  | stop
  | iteration (read : ReadOutcome) (allocOk : Bool)
  deriving DecidableEq, Repr

/-- Where a run of `readLoop` stands. -/
inductive LoopStatus
  | attachFailed
  | bufferFailed
  | looping
  | detached
  deriving DecidableEq, Repr

/-- A run of `readLoop` up to the end of the given events. -/
structure LoopRun where
  state : RecorderState
  calls : List Callback
  reads : List Int
  status : LoopStatus
  deriving DecidableEq, Repr

/-- The `while` loop of `readLoop` (lines 77-101). -/
def readLoopFrom : RecorderState → List Int → List LoopEvent → LoopRun
  | s, _, [] => ⟨s, [], [], if s.running then LoopStatus.looping else LoopStatus.detached⟩
  | s, buffer, ev :: rest =>
    if s.running then
      match ev with
      | LoopEvent.stop => readLoopFrom { s with running := false } buffer rest
      | LoopEvent.iteration read allocOk =>
        let it := readLoopBody s buffer read allocOk
        match it.control with
        | LoopControl.break_ => ⟨it.state, it.calls, it.reads, LoopStatus.detached⟩
        | LoopControl.continue_ =>
          let r := readLoopFrom it.state it.buffer rest
          ⟨r.state, it.calls ++ r.calls, it.reads ++ r.reads, r.status⟩
    else ⟨s, [], [], LoopStatus.detached⟩

/-- The function `readLoop` (lines 66-102).  `attachOk` tells whether
`AttachCurrentThread` returns `JNI_OK`; a negative `framesPerRead` makes the
`std::vector` constructor throw. -/
def readLoop (s : RecorderState) (attachOk : Bool) (events : List LoopEvent) : LoopRun :=
  if attachOk = false then ⟨s, [], [], LoopStatus.attachFailed⟩
  else
    let config := notifyStreamConfig s
    if s.framesPerRead < 0 then ⟨s, config, [], LoopStatus.bufferFailed⟩
    else
      let buffer : List Int := List.replicate s.framesPerRead.toNat 0
      let r := readLoopFrom s buffer events
      ⟨r.state, config ++ r.calls, r.reads, r.status⟩

/-- The session is either capturing (running, with a stream and a thread) or
inactive. -/
def Synced (s : RecorderState) : Prop :=
  (s.running = true ∧ (∃ st, s.stream = some st) ∧ s.thread = true) ∨ Inactive s

/-! ## Concrete inputs -/

/-- A device that refuses exclusive mode and grants shared mode at 48 kHz with
a burst of 256 frames. -/
def sharedOnlyDevice (builder : AudioStreamBuilder) : OpenOutcome :=
  if builder.sharingMode = SharingMode.Exclusive then OpenOutcome.failed (-1)
  else OpenOutcome.opened ⟨SharingMode.Shared, 48000, 256⟩

/-- Everything resolves, the device grants shared mode only, the stream starts. -/
def envSharedOnly : StartEnv :=
  { NewGlobalRef := some 7, GetObjectClass := some 8, GetMethodID_onPcm := some 9,
    GetMethodID_onStreamConfig := some 10, GetJavaVM := some 11,
    builderOpenStream := sharedOnlyDevice,
    streamRequestStart := fun _ => Result.OK }

/-- As `envSharedOnly`, but the opened stream refuses to start. -/
def envStartRefused : StartEnv :=
  { envSharedOnly with streamRequestStart := fun _ => Result.Error (-2) }

/-- As `envSharedOnly`, but the device refuses both sharing modes. -/
def envNoDevice : StartEnv :=
  { envSharedOnly with builderOpenStream := fun _ => OpenOutcome.failed (-1) }

/-- A session that is capturing from a shared 48 kHz stream. -/
def runningState : RecorderState :=
  { vm := some 11, engine := some 7, onPcm := some 9, onStreamConfig := some 10,
    stream := some ⟨SharingMode.Shared, 48000, 256⟩, thread := true, running := true,
    framesPerRead := 2 }

/-- The initial session after `openStream` obtained the shared stream of
`sharedOnlyDevice` with no frame count requested. -/
def openedState : RecorderState :=
  { gState with stream := some ⟨SharingMode.Shared, 48000, 256⟩, framesPerRead := 256 }

/-- A read that delivers the two samples 5 and -7. -/
def readTwo : ReadOutcome := ⟨ReadResult.value 2, [5, -7]⟩

/-- A read that times out. -/
def readTimeout : ReadOutcome := ⟨ReadResult.error (-1), []⟩

/-! ## Theorems -/

/-- C1: when the running flag is set, `nativeStart` returns true, hands back
the same session state and issues no request at all: no open attempt, no new
stream handle or frame count, no thread spawned. -/
theorem nativeStart_running_unchanged (env : StartEnv) (s : RecorderState)
    (requestedSampleRate framesPerRead : Int) (h : s.running = true) :
    Java_com_example_tuner_TunerEngine_nativeStart env s requestedSampleRate framesPerRead
      = some ⟨true, s, []⟩ := by
  simp [Java_com_example_tuner_TunerEngine_nativeStart, h]

/-- Witness of C1 on a capturing session. -/
theorem nativeStart_running_unchanged_witness :
    runningState.running = true ∧
    Java_com_example_tuner_TunerEngine_nativeStart envSharedOnly runningState 44100 0
      = some ⟨true, runningState, []⟩ :=
  ⟨rfl, nativeStart_running_unchanged envSharedOnly runningState 44100 0 rfl⟩

/-- An iteration never writes to the session state. -/
theorem readLoopBody_state (s : RecorderState) (buffer : List Int) (read : ReadOutcome)
    (allocOk : Bool) : (readLoopBody s buffer read allocOk).state = s := by
  unfold readLoopBody
  split
  · rfl
  · split
    · rfl
    · split
      · rfl
      · split <;> rfl

/-- An iteration asks the stream for `framesPerRead` frames. -/
theorem readLoopBody_reads (s : RecorderState) (buffer : List Int) (read : ReadOutcome)
    (allocOk : Bool) (n : Int) (h : n ∈ (readLoopBody s buffer read allocOk).reads) :
    n = s.framesPerRead := by
  unfold readLoopBody at h
  split at h
  · simp at h
  · split at h
    · simpa using h
    · split at h
      · simpa using h
      · split at h <;> simpa using h

/-- The loop is left at its test once the running flag is clear. -/
theorem readLoopFrom_not_running (s : RecorderState) (buffer : List Int) (events : List LoopEvent)
    (h : s.running = false) :
    readLoopFrom s buffer events = ⟨s, [], [], LoopStatus.detached⟩ := by
  cases events <;> simp [readLoopFrom, h]

/-- The controller clearing the flag while the loop runs. -/
theorem readLoopFrom_stop (s : RecorderState) (buffer : List Int) (rest : List LoopEvent)
    (h : s.running = true) :
    readLoopFrom s buffer (LoopEvent.stop :: rest)
      = readLoopFrom { s with running := false } buffer rest := by
  simp [readLoopFrom, h]

/-- One iteration of the running loop. -/
theorem readLoopFrom_iteration (s : RecorderState) (buffer : List Int) (read : ReadOutcome)
    (allocOk : Bool) (rest : List LoopEvent) (h : s.running = true) :
    readLoopFrom s buffer (LoopEvent.iteration read allocOk :: rest)
      = match (readLoopBody s buffer read allocOk).control with
        | LoopControl.break_ =>
          ⟨(readLoopBody s buffer read allocOk).state, (readLoopBody s buffer read allocOk).calls,
            (readLoopBody s buffer read allocOk).reads, LoopStatus.detached⟩
        | LoopControl.continue_ =>
          ⟨(readLoopFrom (readLoopBody s buffer read allocOk).state
              (readLoopBody s buffer read allocOk).buffer rest).state,
            (readLoopBody s buffer read allocOk).calls ++
              (readLoopFrom (readLoopBody s buffer read allocOk).state
                (readLoopBody s buffer read allocOk).buffer rest).calls,
            (readLoopBody s buffer read allocOk).reads ++
              (readLoopFrom (readLoopBody s buffer read allocOk).state
                (readLoopBody s buffer read allocOk).buffer rest).reads,
            (readLoopFrom (readLoopBody s buffer read allocOk).state
              (readLoopBody s buffer read allocOk).buffer rest).status⟩ := by
  simp [readLoopFrom, h]

/-- Every read of the capture loop is asked for `framesPerRead` frames. -/
theorem readLoopFrom_reads (events : List LoopEvent) :
    ∀ (s : RecorderState) (buffer : List Int) (n : Int),
      n ∈ (readLoopFrom s buffer events).reads → n = s.framesPerRead := by
  induction events with
  | nil => intro s buffer n h; simp [readLoopFrom] at h
  | cons ev rest ih =>
    intro s buffer n h
    by_cases hr : s.running = true
    · cases ev with
      | stop =>
        rw [readLoopFrom_stop s buffer rest hr] at h
        exact ih { s with running := false } buffer n h
      | iteration read allocOk =>
        rw [readLoopFrom_iteration s buffer read allocOk rest hr] at h
        split at h
        · exact readLoopBody_reads s buffer read allocOk n h
        · simp only [List.mem_append] at h
          rcases h with h | h
          · exact readLoopBody_reads s buffer read allocOk n h
          · have := ih _ _ _ h
            rwa [readLoopBody_state] at this
    · have hr2 : s.running = false := by simpa using hr
      rw [readLoopFrom_not_running s buffer _ hr2] at h
      simp at h

/-- Once the controller has cleared the running flag the loop is left: a run
whose events include the clearing of the flag ends detached. -/
theorem readLoopFrom_detached_after_stop (events : List LoopEvent) :
    ∀ (s : RecorderState) (buffer : List Int), LoopEvent.stop ∈ events →
      (readLoopFrom s buffer events).status = LoopStatus.detached := by
  induction events with
  | nil => intro s buffer h; simp at h
  | cons ev rest ih =>
    intro s buffer h
    by_cases hr : s.running = true
    · cases ev with
      | stop =>
        rw [readLoopFrom_stop s buffer rest hr, readLoopFrom_not_running _ buffer rest rfl]
      | iteration read allocOk =>
        have hrest : LoopEvent.stop ∈ rest := by simpa using h
        rw [readLoopFrom_iteration s buffer read allocOk rest hr]
        split
        · rfl
        · exact ih _ _ hrest
    · have hr2 : s.running = false := by simpa using hr
      rw [readLoopFrom_not_running s buffer _ hr2]

/-- Every read of a run of `readLoop` is asked for `framesPerRead` frames. -/
theorem readLoop_reads (s : RecorderState) (attachOk : Bool) (events : List LoopEvent) (n : Int)
    (h : n ∈ (readLoop s attachOk events).reads) : n = s.framesPerRead := by
  unfold readLoop at h
  split at h
  · simp at h
  · split at h
    · simp at h
    · exact readLoopFrom_reads events s _ n h

/-- C2: when `openStream` succeeds, the session holds a stream, and the frame
count it stores is the burst size of that stream if the requested count is not
positive and the requested count otherwise; the capture loop started on that
session passes this value to every read. -/
theorem openStream_resolves_framesPerRead (env : StartEnv) (s s1 : RecorderState)
    (requestedSampleRate framesPerRead : Int) (effects : List Effect)
    (h : openStream env s requestedSampleRate framesPerRead = (Result.OK, s1, effects)) :
    ∃ st, s1.stream = some st ∧
      s1.framesPerRead = (if framesPerRead ≤ 0 then st.framesPerBurst else framesPerRead) ∧
      ∀ (attachOk : Bool) (events : List LoopEvent) (n : Int),
        n ∈ (readLoop { s1 with running := true, thread := true } attachOk events).reads →
        n = (if framesPerRead ≤ 0 then st.framesPerBurst else framesPerRead) := by
  unfold openStream at h
  simp only at h
  split at h
  · simp at h
  · rename_i st hst
    simp only [Prod.mk.injEq, true_and] at h
    obtain ⟨hs1, -⟩ := h
    have hfr : s1.framesPerRead = (if framesPerRead ≤ 0 then st.framesPerBurst else framesPerRead) := by
      subst hs1
      by_cases hf : framesPerRead ≤ 0 <;> simp [hf]
    refine ⟨st, ?_, hfr, ?_⟩
    · subst hs1
      by_cases hf : framesPerRead ≤ 0 <;> simp [hf]
    · intro attachOk events n hn
      have := readLoop_reads _ attachOk events n hn
      simpa [hfr] using this

/-- Witness of C2: no frame count requested, shared stream with burst 256. -/
theorem openStream_resolves_framesPerRead_witness :
    openStream envSharedOnly gState 44100 0
        = (Result.OK, openedState,
            [Effect.builderOpenStream SharingMode.Exclusive,
              Effect.builderOpenStream SharingMode.Shared]) ∧
      ∃ st, openedState.stream = some st ∧
        openedState.framesPerRead = (if (0 : Int) ≤ 0 then st.framesPerBurst else 0) ∧
        ∀ (attachOk : Bool) (events : List LoopEvent) (n : Int),
          n ∈ (readLoop { openedState with running := true, thread := true }
                attachOk events).reads →
          n = (if (0 : Int) ≤ 0 then st.framesPerBurst else 0) :=
  ⟨by decide, openStream_resolves_framesPerRead envSharedOnly gState openedState 44100 0
    [Effect.builderOpenStream SharingMode.Exclusive, Effect.builderOpenStream SharingMode.Shared]
    (by decide)⟩

/-- The function `ensureJniRefs` touches only the JNI references of the session. -/
theorem ensureJniRefs_keeps (env : StartEnv) (s : RecorderState) :
    (ensureJniRefs env s).2.1.stream = s.stream ∧
    (ensureJniRefs env s).2.1.thread = s.thread ∧
    (ensureJniRefs env s).2.1.running = s.running := by
  unfold ensureJniRefs
  simp only
  split_ifs <;> (try split) <;> simp

/-- The function `ensureJniRefs` talks to JNI and the logger only. -/
theorem ensureJniRefs_effects (env : StartEnv) (s : RecorderState) (e : Effect)
    (h : e ∈ (ensureJniRefs env s).2.2) :
    e ≠ Effect.threadSpawn ∧ ∀ m, e ≠ Effect.builderOpenStream m := by
  unfold ensureJniRefs at h
  simp only at h
  split_ifs at h <;> (try split at h) <;> simp at h <;>
    (refine ⟨fun he => ?_, fun m he => ?_⟩ <;> subst he <;> simp at h)

/-- The function `openStream` leaves the thread handle and the running flag alone. -/
theorem openStream_keeps (env : StartEnv) (s : RecorderState) (requestedSampleRate framesPerRead : Int) :
    (openStream env s requestedSampleRate framesPerRead).2.1.thread = s.thread ∧
    (openStream env s requestedSampleRate framesPerRead).2.1.running = s.running := by
  unfold openStream
  simp only
  split
  · simp
  · split_ifs <;> simp

/-- The function `openStream` returns `OK` with a stream in the session, or an
error with the handle reset. -/
theorem openStream_result (env : StartEnv) (s : RecorderState) (requestedSampleRate framesPerRead : Int) :
    ((openStream env s requestedSampleRate framesPerRead).1 = Result.OK ∧
      ∃ st, (openStream env s requestedSampleRate framesPerRead).2.1.stream = some st) ∨
    ((∃ code, (openStream env s requestedSampleRate framesPerRead).1 = Result.Error code) ∧
      (openStream env s requestedSampleRate framesPerRead).2.1.stream = none) := by
  unfold openStream
  simp only
  split
  · right; simp
  · left
    split_ifs <;> simp

/-- The function `openStream` issues open attempts only. -/
theorem openStream_effects (env : StartEnv) (s : RecorderState) (requestedSampleRate framesPerRead : Int)
    (e : Effect) (h : e ∈ (openStream env s requestedSampleRate framesPerRead).2.2) :
    ∃ m, e = Effect.builderOpenStream m := by
  unfold openStream at h
  simp only at h
  split at h <;> split at h <;> simp at h <;> aesop

/-- Outcome of `nativeStart` on an inactive session: the call returns; on true
the session runs with a stream and a thread, on false it is inactive again and
no thread was spawned. -/
theorem nativeStart_inactive (env : StartEnv) (s : RecorderState)
    (requestedSampleRate framesPerRead : Int) (h : Inactive s) :
    ∃ out, Java_com_example_tuner_TunerEngine_nativeStart env s requestedSampleRate framesPerRead
        = some out ∧
      (out.ret = true → out.state.running = true ∧ (∃ st, out.state.stream = some st) ∧
        out.state.thread = true) ∧
      (out.ret = false → Inactive out.state ∧ Effect.threadSpawn ∉ out.effects) := by
  obtain ⟨hr, hs, ht⟩ := h
  have hk := ensureJniRefs_keeps env s
  have he := ensureJniRefs_effects env s
  unfold Java_com_example_tuner_TunerEngine_nativeStart
  rcases hE : ensureJniRefs env s with ⟨b, s1, e1⟩
  rw [hE] at hk he
  simp only at hk he
  obtain ⟨hk1, hk2, hk3⟩ := hk
  cases b
  · simp [hr, Inactive, hk1, hk2, hk3, hs, ht]
    intro hsp
    exact (he _ hsp).1 rfl
  · simp only [hr, Bool.false_eq_true, if_false]
    generalize hs2 : (if s1.vm = none then { s1 with vm := env.GetJavaVM } else s1) = s2
    have hs2k : s2.thread = false ∧ s2.running = false := by
      subst hs2
      split_ifs <;> simp [hk2, hk3, hr, ht]
    generalize he2 : (if s1.vm = none then [Effect.GetJavaVM] else []) = e2
    have he2m : Effect.threadSpawn ∉ e2 := by
      subst he2
      split_ifs <;> simp
    have ok := openStream_keeps env s2 requestedSampleRate framesPerRead
    have orr := openStream_result env s2 requestedSampleRate framesPerRead
    have oe := openStream_effects env s2 requestedSampleRate framesPerRead
    rcases hO : openStream env s2 requestedSampleRate framesPerRead with ⟨res, s3, e3⟩
    rw [hO] at ok orr oe
    simp only at ok orr oe
    have he1m : Effect.threadSpawn ∉ e1 := fun hm => (he _ hm).1 rfl
    have he3m : Effect.threadSpawn ∉ e3 := by
      intro hm
      obtain ⟨m, hm2⟩ := oe _ hm
      cases hm2
    rcases orr with ⟨hres, st, hst⟩ | ⟨⟨code, hres⟩, hst⟩
    · subst hres
      simp only [hst]
      cases hq : env.streamRequestStart st with
      | OK => simp [ok, hs2k]
      | Error c => simp [ok, hs2k, Inactive, he1m, he2m, he3m]
    · subst hres
      simp [hst, ok, hs2k, Inactive, he1m, he2m, he3m]

/-- The function `openStream` when the device refuses both sharing modes. -/
theorem openStream_both_fail (env : StartEnv) (s : RecorderState)
    (requestedSampleRate framesPerRead c1 c2 : Int)
    (hx : env.builderOpenStream (streamBuilder requestedSampleRate) = OpenOutcome.failed c1)
    (hs : env.builderOpenStream (sharedBuilder requestedSampleRate) = OpenOutcome.failed c2) :
    openStream env s requestedSampleRate framesPerRead
      = (Result.Error c2, { s with stream := none },
          [Effect.builderOpenStream SharingMode.Exclusive,
            Effect.builderOpenStream SharingMode.Shared]) := by
  simp [openStream, hx, hs]

/-- The function `openStream` when only the shared retry is granted. -/
theorem openStream_shared (env : StartEnv) (s : RecorderState)
    (requestedSampleRate framesPerRead c : Int) (st : AudioStream)
    (hx : env.builderOpenStream (streamBuilder requestedSampleRate) = OpenOutcome.failed c)
    (hs : env.builderOpenStream (sharedBuilder requestedSampleRate) = OpenOutcome.opened st) :
    openStream env s requestedSampleRate framesPerRead
      = (Result.OK,
          { s with stream := some st,
                   framesPerRead := if framesPerRead ≤ 0 then st.framesPerBurst else framesPerRead },
          [Effect.builderOpenStream SharingMode.Exclusive,
            Effect.builderOpenStream SharingMode.Shared]) := by
  by_cases hf : framesPerRead ≤ 0 <;> simp [openStream, hx, hs, hf]

/-- C3: on an inactive session `nativeStart` returns, and if it returns false
the session is left not running, without a stream and without a thread, and no
thread was spawned.  It returns false without any open attempt when the JNI
references cannot be resolved, and it returns false when the device refuses
both the exclusive and the shared open. -/
theorem nativeStart_false_retains_nothing (env : StartEnv) (s : RecorderState)
    (requestedSampleRate framesPerRead : Int) (h : Inactive s) :
    ∃ out, Java_com_example_tuner_TunerEngine_nativeStart env s requestedSampleRate framesPerRead
        = some out ∧
      (out.ret = false →
        out.state.running = false ∧ out.state.stream = none ∧ out.state.thread = false ∧
          Effect.threadSpawn ∉ out.effects) ∧
      ((ensureJniRefs env s).1 = false →
        out.ret = false ∧ ∀ m, Effect.builderOpenStream m ∉ out.effects) ∧
      ((∃ c1 c2,
          env.builderOpenStream (streamBuilder requestedSampleRate) = OpenOutcome.failed c1 ∧
          env.builderOpenStream (sharedBuilder requestedSampleRate) = OpenOutcome.failed c2) →
        out.ret = false) := by
  obtain ⟨out, hout, -, hfalse⟩ := nativeStart_inactive env s requestedSampleRate framesPerRead h
  refine ⟨out, hout, ?_, ?_, ?_⟩
  · intro hret
    obtain ⟨⟨h1, h2, h3⟩, h4⟩ := hfalse hret
    exact ⟨h1, h2, h3, h4⟩
  · intro hj
    have he := ensureJniRefs_effects env s
    unfold Java_com_example_tuner_TunerEngine_nativeStart at hout
    rcases hE : ensureJniRefs env s with ⟨b, s1, e1⟩
    rw [hE] at hout hj he
    simp only at hj he
    subst hj
    simp only [h.1, Bool.false_eq_true, if_false, Option.some.injEq] at hout
    subst hout
    exact ⟨rfl, fun m hm => (he _ hm).2 m rfl⟩
  · rintro ⟨c1, c2, hx, hs⟩
    unfold Java_com_example_tuner_TunerEngine_nativeStart at hout
    rcases hE : ensureJniRefs env s with ⟨b, s1, e1⟩
    rw [hE] at hout
    cases b
    · simp only [h.1, Bool.false_eq_true, if_false, Option.some.injEq] at hout
      subst hout
      rfl
    · simp only [h.1, Bool.false_eq_true, if_false,
        openStream_both_fail env _ requestedSampleRate framesPerRead c1 c2 hx hs,
        Option.some.injEq] at hout
      subst hout
      rfl

/-- Witness of C3: the first start of the process on a device that refuses
both sharing modes. -/
theorem nativeStart_false_retains_nothing_witness :
    Inactive gState ∧
    ∃ out, Java_com_example_tuner_TunerEngine_nativeStart envNoDevice gState 44100 0 = some out ∧
      (out.ret = false →
        out.state.running = false ∧ out.state.stream = none ∧ out.state.thread = false ∧
          Effect.threadSpawn ∉ out.effects) ∧
      ((ensureJniRefs envNoDevice gState).1 = false →
        out.ret = false ∧ ∀ m, Effect.builderOpenStream m ∉ out.effects) ∧
      ((∃ c1 c2,
          envNoDevice.builderOpenStream (streamBuilder 44100) = OpenOutcome.failed c1 ∧
          envNoDevice.builderOpenStream (sharedBuilder 44100) = OpenOutcome.failed c2) →
        out.ret = false) :=
  ⟨by decide, nativeStart_false_retains_nothing envNoDevice gState 44100 0 (by decide)⟩

/-- C8, as amended: on an inactive session whose JNI references resolve, if
the exclusive open fails, the shared retry succeeds and the opened stream
accepts the start request, `nativeStart` returns true and the session runs on
the shared stream. -/
theorem nativeStart_shared_fallback (env : StartEnv) (s : RecorderState)
    (requestedSampleRate framesPerRead c : Int) (st : AudioStream) (h : Inactive s)
    (hj : (ensureJniRefs env s).1 = true)
    (hx : env.builderOpenStream (streamBuilder requestedSampleRate) = OpenOutcome.failed c)
    (hs : env.builderOpenStream (sharedBuilder requestedSampleRate) = OpenOutcome.opened st)
    (hstart : env.streamRequestStart st = Result.OK) :
    ∃ out, Java_com_example_tuner_TunerEngine_nativeStart env s requestedSampleRate framesPerRead
        = some out ∧
      out.ret = true ∧ out.state.stream = some st ∧ out.state.running = true := by
  obtain ⟨hr, -, ht⟩ := h
  have hk := ensureJniRefs_keeps env s
  unfold Java_com_example_tuner_TunerEngine_nativeStart
  rcases hE : ensureJniRefs env s with ⟨b, s1, e1⟩
  rw [hE] at hj hk
  simp only at hj hk
  subst hj
  have ht1 : s1.thread = false := by rw [hk.2.1]; exact ht
  by_cases hvm : s1.vm = none <;>
    simp [hr, openStream_shared env _ requestedSampleRate framesPerRead c st hx hs, hstart,
      ht1, hvm]

/-- Witness of C8 as amended: first start on a device that grants shared mode only. -/
theorem nativeStart_shared_fallback_witness :
    Inactive gState ∧ (ensureJniRefs envSharedOnly gState).1 = true ∧
    envSharedOnly.builderOpenStream (streamBuilder 44100) = OpenOutcome.failed (-1) ∧
    envSharedOnly.builderOpenStream (sharedBuilder 44100)
      = OpenOutcome.opened ⟨SharingMode.Shared, 48000, 256⟩ ∧
    envSharedOnly.streamRequestStart ⟨SharingMode.Shared, 48000, 256⟩ = Result.OK ∧
    ∃ out, Java_com_example_tuner_TunerEngine_nativeStart envSharedOnly gState 44100 0
        = some out ∧
      out.ret = true ∧ out.state.stream = some ⟨SharingMode.Shared, 48000, 256⟩ ∧
      out.state.running = true :=
  ⟨by decide, by decide, by decide, by decide, by decide,
    nativeStart_shared_fallback envSharedOnly gState 44100 0 (-1) ⟨SharingMode.Shared, 48000, 256⟩
      (by decide) (by decide) (by decide) (by decide) (by decide)⟩

/-- C8 as stated fails: the session is inactive, the JNI references resolve,
the exclusive open fails and the shared retry succeeds, yet `nativeStart`
returns false because the opened stream refuses the start request; the stream
is closed and dropped. -/
theorem start_refused_after_shared_open :
    Inactive gState ∧ (ensureJniRefs envStartRefused gState).1 = true ∧
    envStartRefused.builderOpenStream (streamBuilder 44100) = OpenOutcome.failed (-1) ∧
    envStartRefused.builderOpenStream (sharedBuilder 44100)
      = OpenOutcome.opened ⟨SharingMode.Shared, 48000, 256⟩ ∧
    Java_com_example_tuner_TunerEngine_nativeStart envStartRefused gState 44100 0
      = some ⟨false,
          { vm := some 11, engine := some 7, onPcm := some 9, onStreamConfig := some 10,
            stream := none, thread := false, running := false, framesPerRead := 256 },
          [Effect.NewGlobalRef, Effect.GetObjectClass, Effect.GetMethodID, Effect.GetMethodID,
            Effect.DeleteLocalRef, Effect.GetJavaVM,
            Effect.builderOpenStream SharingMode.Exclusive,
            Effect.builderOpenStream SharingMode.Shared, Effect.streamRequestStart,
            Effect.logWarning Warning.startOboeStream, Effect.streamClose]⟩ := by
  decide

/-- The function `nativeStop` always leaves an inactive session. -/
theorem nativeStop_inactive (s : RecorderState) :
    Inactive (Java_com_example_tuner_TunerEngine_nativeStop s).1 := by
  unfold Java_com_example_tuner_TunerEngine_nativeStop Inactive
  simp only
  cases hs : s.stream <;> cases ht : s.thread <;> cases he : s.engine <;> simp

/-- A completed call keeps the session capturing or inactive, and every call
made on such a session returns. -/
theorem applyCall_synced (s : RecorderState) (c : Call) (h : Synced s) :
    ∃ s1, applyCall s c = some s1 ∧ Synced s1 := by
  cases c with
  | start env requestedSampleRate framesPerRead =>
    rcases h with hrun | hin
    · refine ⟨s, ?_, Or.inl hrun⟩
      simp [applyCall, Java_com_example_tuner_TunerEngine_nativeStart, hrun.1]
    · obtain ⟨out, hout, htrue, hfalse⟩ :=
        nativeStart_inactive env s requestedSampleRate framesPerRead hin
      refine ⟨out.state, by simp [applyCall, hout], ?_⟩
      cases hret : out.ret
      · exact Or.inr (hfalse hret).1
      · exact Or.inl (htrue hret)
  | stop => exact ⟨_, rfl, Or.inr (nativeStop_inactive s)⟩

/-- Every sequence of calls made on a capturing or inactive session returns and
ends in such a session. -/
theorem runCalls_synced (calls : List Call) :
    ∀ s, Synced s → ∃ s1, runCalls s calls = some s1 ∧ Synced s1 := by
  induction calls with
  | nil => intro s h; exact ⟨s, rfl, h⟩
  | cons c cs ih =>
    intro s h
    obtain ⟨s1, h1, hs1⟩ := applyCall_synced s c h
    obtain ⟨s2, h2, hs2⟩ := ih s1 hs1
    exact ⟨s2, by simp [runCalls, h1, h2], hs2⟩

/-- Running a sequence followed by one more call. -/
theorem runCalls_append (calls : List Call) (c : Call) :
    ∀ s, runCalls s (calls ++ [c]) = (runCalls s calls).bind (fun s1 => applyCall s1 c) := by
  induction calls with
  | nil => intro s; simp only [List.nil_append, runCalls, Option.some_bind]; cases applyCall s c <;> rfl
  | cons d ds ih =>
    intro s
    simp only [List.cons_append, runCalls]
    cases applyCall s d with
    | none => rfl
    | some s1 => exact ih s1

/-- The initial session is inactive. -/
theorem gState_synced : Synced gState := Or.inr (by decide)

/-- C4: every sequence of `nativeStart` and `nativeStop` calls made from the
initial session returns, and when a `nativeStop` call follows it that call
returns as well, in a session whose running flag is false, whose stream handle
is null and whose thread handle is not joinable. -/
theorem nativeStop_after_any_calls (calls : List Call) :
    ∃ s s1, runCalls gState calls = some s ∧
      runCalls gState (calls ++ [Call.stop]) = some s1 ∧
      s1 = (Java_com_example_tuner_TunerEngine_nativeStop s).1 ∧
      s1.running = false ∧ s1.stream = none ∧ s1.thread = false := by
  obtain ⟨s, hs, -⟩ := runCalls_synced calls gState gState_synced
  obtain ⟨h1, h2, h3⟩ := nativeStop_inactive s
  refine ⟨s, _, hs, ?_, rfl, h1, h2, h3⟩
  rw [runCalls_append, hs]
  rfl

/-- C9: every sequence of `nativeStart` and `nativeStop` calls made from the
initial session returns, and in the session it ends in the stream handle is
non-null exactly when the running flag is true. -/
theorem stream_iff_running (calls : List Call) :
    ∃ s, runCalls gState calls = some s ∧ (s.stream ≠ none ↔ s.running = true) := by
  obtain ⟨s, hs, hsync⟩ := runCalls_synced calls gState gState_synced
  refine ⟨s, hs, ?_⟩
  rcases hsync with ⟨hr, ⟨st, hst⟩, -⟩ | ⟨hr, hst, -⟩
  · simp [hr, hst]
  · simp [hr, hst]

/-- After `nativeStop` the session holds no stream, thread or JNI reference. -/
theorem nativeStop_releases_all (s : RecorderState) :
    (Java_com_example_tuner_TunerEngine_nativeStop s).1.running = false ∧
    (Java_com_example_tuner_TunerEngine_nativeStop s).1.stream = none ∧
    (Java_com_example_tuner_TunerEngine_nativeStop s).1.thread = false ∧
    (Java_com_example_tuner_TunerEngine_nativeStop s).1.engine = none ∧
    (Java_com_example_tuner_TunerEngine_nativeStop s).1.onPcm = none ∧
    (Java_com_example_tuner_TunerEngine_nativeStop s).1.onStreamConfig = none := by
  unfold Java_com_example_tuner_TunerEngine_nativeStop
  simp only
  cases hs : s.stream <;> cases ht : s.thread <;> cases he : s.engine <;> simp

/-- On a session that holds nothing, `nativeStop` changes nothing and issues
no request. -/
theorem nativeStop_of_released (s : RecorderState) (hr : s.running = false)
    (hs : s.stream = none) (ht : s.thread = false) (he : s.engine = none)
    (hp : s.onPcm = none) (hc : s.onStreamConfig = none) :
    Java_com_example_tuner_TunerEngine_nativeStop s = (s, []) := by
  cases s
  simp only at hr hs ht he hp hc
  subst hr hs ht he hp hc
  simp [Java_com_example_tuner_TunerEngine_nativeStop]

/-- C10: `nativeStop` on the initial session, and `nativeStop` on the session
left by any earlier `nativeStop`, hands back the session unchanged and issues
no request (no stop or close of a stream, no join, no release of a reference);
so stopping twice ends in the same session as stopping once. -/
theorem nativeStop_idempotent :
    Java_com_example_tuner_TunerEngine_nativeStop gState = (gState, []) ∧
    (∀ s, Java_com_example_tuner_TunerEngine_nativeStop
            (Java_com_example_tuner_TunerEngine_nativeStop s).1
          = ((Java_com_example_tuner_TunerEngine_nativeStop s).1, [])) ∧
    (∀ s, (Java_com_example_tuner_TunerEngine_nativeStop
            (Java_com_example_tuner_TunerEngine_nativeStop s).1).1
          = (Java_com_example_tuner_TunerEngine_nativeStop s).1) := by
  have key : ∀ s, Java_com_example_tuner_TunerEngine_nativeStop
            (Java_com_example_tuner_TunerEngine_nativeStop s).1
          = ((Java_com_example_tuner_TunerEngine_nativeStop s).1, []) := by
    intro s
    obtain ⟨h1, h2, h3, h4, h5, h6⟩ := nativeStop_releases_all s
    exact nativeStop_of_released _ h1 h2 h3 h4 h5 h6
  refine ⟨by decide, key, ?_⟩
  intro s
  rw [key s]

/-- An iteration makes `onPcm` calls only. -/
theorem readLoopBody_calls_pcm (s : RecorderState) (buffer : List Int) (read : ReadOutcome)
    (allocOk : Bool) (c : Callback) (h : c ∈ (readLoopBody s buffer read allocOk).calls) :
    c.isPcm = true := by
  unfold readLoopBody at h
  split at h
  · simp at h
  · split at h
    · simp at h
    · split at h
      · simp at h
      · split at h
        · simp at h
        · simp only [List.mem_singleton] at h
          subst h
          rfl

/-- The `while` loop makes `onPcm` calls only. -/
theorem readLoopFrom_calls_pcm (events : List LoopEvent) :
    ∀ (s : RecorderState) (buffer : List Int) (c : Callback),
      c ∈ (readLoopFrom s buffer events).calls → c.isPcm = true := by
  induction events with
  | nil => intro s buffer c h; simp [readLoopFrom] at h
  | cons ev rest ih =>
    intro s buffer c h
    by_cases hr : s.running = true
    · cases ev with
      | stop =>
        rw [readLoopFrom_stop s buffer rest hr] at h
        exact ih { s with running := false } buffer c h
      | iteration read allocOk =>
        rw [readLoopFrom_iteration s buffer read allocOk rest hr] at h
        split at h
        · exact readLoopBody_calls_pcm s buffer read allocOk c h
        · simp only [List.mem_append] at h
          rcases h with h | h
          · exact readLoopBody_calls_pcm s buffer read allocOk c h
          · exact ih _ _ c h
    · have hr2 : s.running = false := by simpa using hr
      rw [readLoopFrom_not_running s buffer _ hr2] at h
      simp at h

/-- The function `notifyStreamConfig` makes no call, or one `onStreamConfig`
call with the sample rate of the session stream. -/
theorem notifyStreamConfig_cases (s : RecorderState) :
    notifyStreamConfig s = [] ∨
    ∃ st, s.stream = some st ∧ notifyStreamConfig s = [Callback.onStreamConfig st.sampleRate] := by
  unfold notifyStreamConfig
  split
  · rename_i st _ _ hst
    exact Or.inr ⟨st, hst, rfl⟩
  · exact Or.inl rfl

/-- The callbacks of a run of `readLoop`: the calls of `notifyStreamConfig`, or
nothing, followed by `onPcm` calls. -/
theorem readLoop_calls (s : RecorderState) (attachOk : Bool) (events : List LoopEvent) :
    ∃ config pcms, (readLoop s attachOk events).calls = config ++ pcms ∧
      (config = [] ∨
        ∃ st, s.stream = some st ∧ config = [Callback.onStreamConfig st.sampleRate]) ∧
      ∀ c ∈ pcms, c.isPcm = true := by
  unfold readLoop
  split
  · exact ⟨[], [], rfl, Or.inl rfl, by simp⟩
  · split
    · exact ⟨notifyStreamConfig s, [], by simp, notifyStreamConfig_cases s, by simp⟩
    · exact ⟨notifyStreamConfig s, _, rfl, notifyStreamConfig_cases s,
        fun c hc => readLoopFrom_calls_pcm events s _ c hc⟩

/-- C5: in the callbacks of any run of `readLoop` there is at most one
`onStreamConfig` call; such a call is the first callback of the run and carries
the sample rate of the session stream; it comes before every `onPcm` call. -/
theorem readLoop_streamConfig_once_first (s : RecorderState) (attachOk : Bool)
    (events : List LoopEvent) :
    ((readLoop s attachOk events).calls.filter Callback.isStreamConfig).length ≤ 1 ∧
    (∀ (i : Nat) rate,
      (readLoop s attachOk events).calls[i]? = some (Callback.onStreamConfig rate) →
      i = 0 ∧ ∃ st, s.stream = some st ∧ rate = st.sampleRate) ∧
    (∀ (i j : Nat) rate pcm n,
      (readLoop s attachOk events).calls[i]? = some (Callback.onStreamConfig rate) →
      (readLoop s attachOk events).calls[j]? = some (Callback.onPcm pcm n) → i < j) := by
  obtain ⟨config, pcms, hcalls, hconfig, hpcms⟩ := readLoop_calls s attachOk events
  rw [hcalls]
  have hfilter : pcms.filter Callback.isStreamConfig = [] := by
    rw [List.filter_eq_nil_iff]
    intro c hc
    have := hpcms c hc
    cases c <;> simp_all [Callback.isPcm, Callback.isStreamConfig]
  have hnot : ∀ (k : Nat) rate, pcms[k]? ≠ some (Callback.onStreamConfig rate) := by
    intro k rate hk
    have hmem : Callback.onStreamConfig rate ∈ pcms := List.getElem?_mem hk
    have := hpcms _ hmem
    simp [Callback.isPcm] at this
  have hsecond : ∀ (i : Nat) rate, (config ++ pcms)[i]? = some (Callback.onStreamConfig rate) →
      i = 0 ∧ ∃ st, s.stream = some st ∧ rate = st.sampleRate := by
    intro i rate hi
    rcases hconfig with rfl | ⟨st, hst, rfl⟩
    · simp only [List.nil_append] at hi
      exact absurd hi (hnot i rate)
    · cases i with
      | zero =>
        simp only [List.singleton_append, List.getElem?_cons_zero, Option.some.injEq,
          Callback.onStreamConfig.injEq] at hi
        exact ⟨rfl, st, hst, hi.symm⟩
      | succ k =>
        simp only [List.singleton_append, List.getElem?_cons_succ] at hi
        exact absurd hi (hnot k rate)
  refine ⟨?_, hsecond, ?_⟩
  · rw [List.filter_append, hfilter, List.append_nil]
    rcases hconfig with rfl | ⟨st, -, rfl⟩
    · simp
    · simp [List.filter, Callback.isStreamConfig]
  · intro i j rate pcm n hi hj
    obtain ⟨hi0, -⟩ := hsecond i rate hi
    subst hi0
    cases j with
    | zero => rw [hi] at hj; cases hj
    | succ k => exact Nat.succ_pos k

/-- The array filled at lines 91-96 has the length passed to `NewShortArray`. -/
theorem pcm_length (framesRead : Int) (buf : List Int) :
    (SetShortArrayRegion (NewShortArray framesRead) 0 framesRead.toNat buf).length
      = framesRead.toNat := by
  simp [SetShortArrayRegion, NewShortArray]

/-- The array filled at lines 91-96 holds the first samples of the buffer. -/
theorem pcm_getElem? (framesRead : Int) (buf : List Int) (i : Nat) (hi : i < framesRead.toNat)
    (hcap : framesRead.toNat ≤ buf.length) :
    (SetShortArrayRegion (NewShortArray framesRead) 0 framesRead.toNat buf)[i]? = buf[i]? := by
  have hb : i < buf.length := Nat.lt_of_lt_of_le hi hcap
  simp [SetShortArrayRegion, NewShortArray, hi, hb, List.getElem?_eq_getElem, List.getD_eq_getElem]
  intro hle
  omega

/-- The device writing into the buffer keeps its size. -/
theorem writeBuffer_length (buffer written : List Int) :
    (writeBuffer buffer written).length = buffer.length := by
  simp [writeBuffer]

/-- C6, as amended: in an iteration whose read succeeds with `N > 0` frames,
`N` not above the size of the buffer, and whose `NewShortArray` call succeeds,
exactly one `onPcm` call is made; its frame count is `N`, its array has length
`N`, and element `i` of the array is element `i` of the buffer after the read
for every `i < N`. -/
theorem readLoopBody_forwards_frame (s : RecorderState) (buffer : List Int) (read : ReadOutcome)
    (allocOk : Bool) (st : AudioStream) (N : Int) (hs : s.stream = some st)
    (hread : read.result = ReadResult.value N) (hN : 0 < N) (halloc : allocOk = true)
    (hcap : N.toNat ≤ buffer.length) :
    ∃ pcm, (readLoopBody s buffer read allocOk).calls = [Callback.onPcm pcm N] ∧
      (pcm.length : Int) = N ∧
      ∀ i, i < N.toNat → pcm[i]? = (readLoopBody s buffer read allocOk).buffer[i]? := by
  have hN2 : ¬ N ≤ 0 := not_le.mpr hN
  have hbody : readLoopBody s buffer read allocOk
      = ⟨s, writeBuffer buffer read.written, [s.framesPerRead],
          [Callback.onPcm (SetShortArrayRegion (NewShortArray N) 0 N.toNat
            (writeBuffer buffer read.written)) N], LoopControl.continue_⟩ := by
    simp [readLoopBody, hs, hread, hN2, halloc]
  rw [hbody]
  refine ⟨_, rfl, ?_, ?_⟩
  · rw [pcm_length]
    exact Int.toNat_of_nonneg (le_of_lt hN)
  · intro i hi
    exact pcm_getElem? N _ i hi (by rw [writeBuffer_length]; exact hcap)

/-- Witness of C6 as amended: two samples read into a buffer of two frames. -/
theorem readLoopBody_forwards_frame_witness :
    runningState.stream = some ⟨SharingMode.Shared, 48000, 256⟩ ∧
    readTwo.result = ReadResult.value 2 ∧ (0 : Int) < 2 ∧ true = true ∧
    (2 : Int).toNat ≤ [(0 : Int), 0].length ∧
    ∃ pcm, (readLoopBody runningState [0, 0] readTwo true).calls = [Callback.onPcm pcm 2] ∧
      (pcm.length : Int) = 2 ∧
      ∀ i, i < (2 : Int).toNat →
        pcm[i]? = (readLoopBody runningState [0, 0] readTwo true).buffer[i]? :=
  ⟨by decide, by decide, by decide, rfl, by decide,
    readLoopBody_forwards_frame runningState [0, 0] readTwo true ⟨SharingMode.Shared, 48000, 256⟩ 2
      (by decide) (by decide) (by decide) rfl (by decide)⟩

/-- C6 as stated fails: the read succeeds with 2 > 0 frames, but
`NewShortArray` returns null and the iteration makes no `onPcm` call. -/
theorem readLoopBody_allocation_failure_no_call :
    runningState.running = true ∧
    runningState.stream = some ⟨SharingMode.Shared, 48000, 256⟩ ∧
    readTwo.result = ReadResult.value 2 ∧ (0 : Int) < 2 ∧
    readLoopBody runningState [0, 0] readTwo false
      = ⟨runningState, [5, -7], [2], [], LoopControl.continue_⟩ ∧
    ¬ ∃ pcm, (readLoopBody runningState [0, 0] readTwo false).calls = [Callback.onPcm pcm 2] := by
  refine ⟨by decide, by decide, by decide, by decide, by decide, ?_⟩
  rintro ⟨pcm, h⟩
  have h2 : (readLoopBody runningState [0, 0] readTwo false).calls = [] := by decide
  rw [h2] at h
  cases h

/-- C7: in an iteration of the running loop whose read returns an error, or a
frame count that is not positive, or whose array allocation fails, no callback
is made, the session state (running flag and stream handle included) is left
as it was, and the loop goes back to its test: the run continues with the
remaining events exactly as the loop run from the same session does. -/
theorem readLoop_failed_iteration_continues (s : RecorderState) (buffer : List Int)
    (read : ReadOutcome) (allocOk : Bool) (rest : List LoopEvent) (st : AudioStream)
    (hrun : s.running = true) (hs : s.stream = some st)
    (hfail : (∃ code, read.result = ReadResult.error code) ∨
      (∃ n, read.result = ReadResult.value n ∧ n ≤ 0) ∨ allocOk = false) :
    (readLoopBody s buffer read allocOk).calls = [] ∧
    (readLoopBody s buffer read allocOk).state = s ∧
    (readLoopBody s buffer read allocOk).control = LoopControl.continue_ ∧
    readLoopFrom s buffer (LoopEvent.iteration read allocOk :: rest)
      = ⟨(readLoopFrom s (writeBuffer buffer read.written) rest).state,
          (readLoopFrom s (writeBuffer buffer read.written) rest).calls,
          s.framesPerRead :: (readLoopFrom s (writeBuffer buffer read.written) rest).reads,
          (readLoopFrom s (writeBuffer buffer read.written) rest).status⟩ := by
  have hbody : readLoopBody s buffer read allocOk
      = ⟨s, writeBuffer buffer read.written, [s.framesPerRead], [], LoopControl.continue_⟩ := by
    rcases hfail with ⟨code, hc⟩ | ⟨n, hn, hle⟩ | ha
    · simp [readLoopBody, hs, hc]
    · simp [readLoopBody, hs, hn, hle]
    · unfold readLoopBody
      simp only [hs, ha]
      split
      · rfl
      · split <;> simp
  rw [readLoopFrom_iteration s buffer read allocOk rest hrun, hbody]
  simp

/-- Witness of C7: a read that times out, followed by a read of two samples. -/
theorem readLoop_failed_iteration_continues_witness :
    runningState.running = true ∧
    runningState.stream = some ⟨SharingMode.Shared, 48000, 256⟩ ∧
    ((∃ code, readTimeout.result = ReadResult.error code) ∨
      (∃ n, readTimeout.result = ReadResult.value n ∧ n ≤ 0) ∨ true = false) ∧
    (readLoopBody runningState [0, 0] readTimeout true).calls = [] ∧
    (readLoopBody runningState [0, 0] readTimeout true).state = runningState ∧
    (readLoopBody runningState [0, 0] readTimeout true).control = LoopControl.continue_ ∧
    readLoopFrom runningState [0, 0]
        (LoopEvent.iteration readTimeout true :: [LoopEvent.iteration readTwo true])
      = ⟨(readLoopFrom runningState (writeBuffer [0, 0] readTimeout.written)
            [LoopEvent.iteration readTwo true]).state,
          (readLoopFrom runningState (writeBuffer [0, 0] readTimeout.written)
            [LoopEvent.iteration readTwo true]).calls,
          runningState.framesPerRead ::
            (readLoopFrom runningState (writeBuffer [0, 0] readTimeout.written)
              [LoopEvent.iteration readTwo true]).reads,
          (readLoopFrom runningState (writeBuffer [0, 0] readTimeout.written)
            [LoopEvent.iteration readTwo true]).status⟩ :=
  ⟨by decide, by decide, Or.inl ⟨-1, rfl⟩,
    readLoop_failed_iteration_continues runningState [0, 0] readTimeout true
      [LoopEvent.iteration readTwo true] ⟨SharingMode.Shared, 48000, 256⟩ (by decide) (by decide)
      (Or.inl ⟨-1, rfl⟩)⟩

end Tuner
